import Mathlib

/-!
Verification of the sqlit connection/session core: the connection flow
(`sqlit/domains/connections/app/connection_flow.py`) and the explorer schema
service (`sqlit/domains/explorer/app/schema_service.py`), shallowly embedded
as pure Lean functions.  The callback-driven flow is embedded as a function
producing the trace of observable events (prompt requests and `on_ready`
invocations); the stateful schema service is embedded with explicit state
passing of the object cache, together with the trace of adapter calls.
-/

namespace Sqlit

/-! ## Connection configuration

Modelled from the spec: `ConnectionConfig` lives in
`sqlit/domains/connections/domain/config.py`, which is not part of the
sources at hand.  Per the spec (§3), a configuration identifies a target
(unique name, engine type) plus an optional TCP endpoint
(host/port/username/password) and an optional SSH tunnel
(host/port/username/password), with copy-on-write derivation operations
that return a new configuration with one field replaced. -/

structure Endpoint where
  host : String
  port : String
  username : String
  password : Option String
  deriving Repr, DecidableEq

structure Tunnel where
  host : String
  port : String
  username : String
  password : Option String
  deriving Repr, DecidableEq

structure ConnectionConfig where
  name : String
  db_type : String
  tcp_endpoint : Option Endpoint
  tunnel : Option Tunnel
  deriving Repr, DecidableEq

namespace ConnectionConfig

/-- Modelled from the spec: the copy-on-write derivation
`config.with_tunnel(password=...)` from `config.py` (not in the sources):
returns a new configuration whose tunnel password is replaced, all other
fields untouched. -/
def with_tunnel_password (c : ConnectionConfig) (password : String) : ConnectionConfig :=
  { c with tunnel := c.tunnel.map (fun t => { t with password := some password }) }

/-- Modelled from the spec: the copy-on-write derivation
`config.with_endpoint(password=...)` from `config.py` (not in the sources):
returns a new configuration whose endpoint password is replaced, all other
fields untouched. -/
def with_endpoint_password (c : ConnectionConfig) (password : String) : ConnectionConfig :=
  { c with tcp_endpoint := c.tcp_endpoint.map (fun e => { e with password := some password }) }

end ConnectionConfig

/-- Modelled from the spec: `needs_ssh_password` from
`sqlit/domains/connections/domain/passwords.py` (not in the sources).
Per spec §4.1 step 2, the flow prompts for the SSH password exactly when
"the tunnel requires a password and none is available": a tunnel is
configured and its password is absent. -/
def needs_ssh_password (c : ConnectionConfig) : Bool :=
  match c.tunnel with
  | some t => t.password.isNone
  | none => false

/-- Modelled from the spec: `needs_db_password` from
`sqlit/domains/connections/domain/passwords.py` (not in the sources).
Per spec §4.1 step 4, the DB password is required exactly when a TCP
endpoint is configured and its password is absent. -/
def needs_db_password (c : ConnectionConfig) : Bool :=
  match c.tcp_endpoint with
  | some e => e.password.isNone
  | none => false

/-- The endpoint (DB) password is already present: no TCP endpoint, or one
whose password is set. -/
def db_password_present (c : ConnectionConfig) : Bool :=
  match c.tcp_endpoint with
  | some e => e.password.isSome
  | none => true

/-- The tunnel (SSH) password is already present: no tunnel configured, or
one whose password is set. -/
def ssh_password_present (c : ConnectionConfig) : Bool :=
  match c.tunnel with
  | some t => t.password.isSome
  | none => true

/-! ## Credential store and prompter behaviours -/

/-- The credential store consumed by `populate_credentials_if_missing`:
`get_password` / `get_ssh_password`, both keyed by connection name, each
returning a secret or none (spec §6). -/
structure CredStore where
  get_password : String → Option String
  get_ssh_password : String → Option String

/-- A pure model of one run of the prompter.  Each prompt's callback is
invoked at most once with a secret or none; the response functions give, for
the configuration the prompt was issued with, `none` when the callback is
never invoked, `some none` when it is invoked with no value (cancellation),
and `some (some p)` when it is invoked with password `p`. -/
structure PrompterBehavior where
  ssh_response : ConnectionConfig → Option (Option String)
  db_response : ConnectionConfig → Option (Option String)

/-- Observable events of one `ConnectionFlow.start` run: a request to the
prompter for the SSH password, a request for the DB password (each recording
the configuration passed to the prompter), or an invocation of the
`on_ready` continuation with the final configuration. -/
inductive FlowEvent where
  | promptSSH (cfg : ConnectionConfig)
  | promptDB (cfg : ConnectionConfig)
  | ready (cfg : ConnectionConfig)
  deriving Repr, DecidableEq

/-- `ConnectionFlow.populate_credentials_if_missing` (connection_flow.py
lines 29-45, the path with no `connection_manager`): returns early when an
endpoint is present with a password and the tunnel, if any, has a password;
otherwise fills the missing endpoint password from `get_password` and the
missing tunnel password from `get_ssh_password`.  The Python in-place
mutation of the given configuration is embedded as returning the updated
configuration. -/
def populate_credentials_if_missing (store : CredStore) (config : ConnectionConfig) :
    ConnectionConfig :=
  if (match config.tcp_endpoint with | some e => e.password.isSome | none => false)
      && (match config.tunnel with | some t => t.password.isSome | none => true) then
    config
  else
    let config :=
      match config.tcp_endpoint with
      | some e =>
        if e.password.isNone then
          match store.get_password config.name with
          | some password => { config with tcp_endpoint := some { e with password := some password } }
          | none => config
        else config
      | none => config
    match config.tunnel with
    | some t =>
      if t.password.isNone then
        match store.get_ssh_password config.name with
        | some ssh_password => { config with tunnel := some { t with password := some ssh_password } }
        | none => config
      else config
    | none => config

/-- `ConnectionFlow._with_db_password` (connection_flow.py lines 66-80) as a
trace function: if the DB password is needed, no prompter means an empty
trace; otherwise the DB prompt is issued and, depending on the callback's
outcome, the flow aborts or invokes `on_ready` with the derived
configuration.  If no DB password is needed, `on_ready` fires with the given
configuration. -/
def with_db_password (prompter : Option PrompterBehavior) (config : ConnectionConfig) :
    List FlowEvent :=
  if needs_db_password config then
    match prompter with
    | none => []
    | some p =>
      FlowEvent.promptDB config ::
        match p.db_response config with
        | none => []
        | some none => []
        | some (some password) =>
          [FlowEvent.ready (config.with_endpoint_password password)]
  else
    [FlowEvent.ready config]

/-- `ConnectionFlow.start` (connection_flow.py lines 47-64) as a trace
function: after credential population, if an SSH password is needed, no
prompter means an empty trace; otherwise the SSH prompt is issued and,
depending on the callback's outcome, the flow aborts or continues into
`with_db_password` with the tunnel password filled in.  If no SSH password
is needed, it continues into `with_db_password` directly. -/
def start (store : CredStore) (prompter : Option PrompterBehavior)
    (config : ConnectionConfig) : List FlowEvent :=
  let config := populate_credentials_if_missing store config
  if needs_ssh_password config then
    match prompter with
    | none => []
    | some p =>
      FlowEvent.promptSSH config ::
        match p.ssh_response config with
        | none => []
        | some none => []
        | some (some password) =>
          with_db_password prompter (config.with_tunnel_password password)
  else
    with_db_password prompter config

/-- The number of `on_ready` invocations in a flow trace. -/
def readyCount (tr : List FlowEvent) : Nat :=
  (tr.filter (fun e => match e with | FlowEvent.ready _ => true | _ => false)).length

/-- Whether a flow trace contains a DB-prompt request. -/
def hasPromptDB (tr : List FlowEvent) : Bool :=
  tr.any (fun e => match e with | FlowEvent.promptDB _ => true | _ => false)

/-- Whether a flow trace contains any prompter request (SSH or DB). -/
def hasPrompt (tr : List FlowEvent) : Bool :=
  tr.any (fun e => match e with
    | FlowEvent.promptSSH _ => true
    | FlowEvent.promptDB _ => true
    | _ => false)

/-! ## Explorer schema service

Embedding of `ExplorerSchemaService` (schema_service.py).  The session's
adapter and capability flags are fixed per service instance; each inspector
method is a function of the resolved database argument (the connection
handle, constant per session, is folded in).  Every `_run` dispatch —
one submission to the session's worker — is recorded as an `AdapterCall`
in the returned trace, and the mutable `object_cache` dict is threaded
explicitly. -/

/-- The capability flag set of spec §3 (`supports-indexes`,
`supports-triggers`, `supports-sequences`, `supports-stored-procedures`,
`supports-multiple-databases`). -/
structure Capabilities where
  supports_indexes : Bool
  supports_triggers : Bool
  supports_sequences : Bool
  supports_stored_procedures : Bool
  supports_multiple_databases : Bool
  deriving Repr, DecidableEq

/-- An index/trigger/sequence descriptor as used by `list_folder_items`
(`item.name`, `item.table_name`). -/
structure ItemInfo where
  name : String
  table_name : String
  deriving Repr, DecidableEq

/-- The schema inspector of a session's provider.  `get_tables` and
`get_views` are part of the base adapter contract; `get_indexes`,
`get_triggers`, `get_sequences` and `get_procedures` belong to the optional
extension interfaces (`IndexInspector`, `TriggerInspector`,
`SequenceInspector`, `ProcedureInspector`): an inspector that does not
implement the extension has `none` there, mirroring the `isinstance`
probes in schema_service.py. -/
structure Inspector where
  get_tables : Option String → List (String × String)
  get_views : Option String → List (String × String)
  get_indexes : Option (Option String → List ItemInfo)
  get_triggers : Option (Option String → List ItemInfo)
  get_sequences : Option (Option String → List ItemInfo)
  get_procedures : Option (Option String → List String)

/-- One dispatch through the session worker (`_run`), recording which
inspector method was invoked and the database argument forwarded to it. -/
inductive AdapterCall where
  | getTables (db : Option String)
  | getViews (db : Option String)
  | getIndexes (db : Option String)
  | getTriggers (db : Option String)
  | getSequences (db : Option String)
  | getProcedures (db : Option String)
  deriving Repr, DecidableEq

/-- The database argument an adapter call was made with. -/
def AdapterCall.dbArg : AdapterCall → Option String
  | getTables db => db
  | getViews db => db
  | getIndexes db => db
  | getTriggers db => db
  | getSequences db => db
  | getProcedures db => db

/-- A value stored in the object cache: the raw result of `get_tables` /
`get_views` (schema–name pairs) or of `get_procedures` (names).  The Python
cache stores these untyped (`dict[str, Any]`); each kind key only ever holds
the variant its own loader produced. -/
inductive RawData where
  | pairs (d : List (String × String))
  | names (d : List String)
  deriving Repr, DecidableEq

/-- The pairs held by a cache value.  The `names` case is unreachable under
the kind keys that store pairs (Python would raise on unpacking there). -/
def RawData.asPairs : RawData → List (String × String)
  | pairs d => d
  | names _ => []

/-- The names held by a cache value.  The `pairs` case is unreachable under
the `procedures` key (Python would not produce it there). -/
def RawData.asNames : RawData → List String
  | names d => d
  | pairs _ => []

/-- The `object_cache` dict of the service:
`dict[str, dict[str, Any]]`, a partition per database-scope key, each
partition keyed by folder kind.  Embedded as nested association lists. -/
def Cache := List (String × List (String × RawData))

instance : DecidableEq Cache := inferInstanceAs (DecidableEq (List _))

/-- Lookup of `part[key]` in one cache partition (a Python dict keeps its
keys unique, so the first binding is the binding). -/
def partLookup (part : List (String × RawData)) (key : String) : Option RawData :=
  match part with
  | [] => none
  | (k, d) :: rest => if k = key then some d else partLookup rest key

/-- Lookup of `obj_cache[cache_key][key]`, `none` when either level misses
(the `cache_key in obj_cache and key in obj_cache[cache_key]` test of the
`cached` helper). -/
def cacheLookup (cache : Cache) (cache_key key : String) : Option RawData :=
  match cache with
  | [] => none
  | (ck, part) :: rest =>
    if ck = cache_key then partLookup part key else cacheLookup rest cache_key key

/-- The cache update performed on a miss:
`if cache_key not in obj_cache: obj_cache[cache_key] = {}` followed by
`obj_cache[cache_key][key] = data` — the partition for `cache_key` gains
the binding, every other partition is untouched. -/
def cacheInsert (cache : Cache) (cache_key key : String) (data : RawData) : Cache :=
  match cache with
  | [] => [(cache_key, [(key, data)])]
  | (ck, part) :: rest =>
    if ck = cache_key then (ck, (key, data) :: part) :: rest
    else (ck, part) :: cacheInsert rest cache_key key data

/-- The local `cached(key, loader)` helper of `list_folder_items`
(schema_service.py lines 57-64): a hit returns the stored value with no
adapter call; a miss runs the loader, stores its result under
`(cache_key, key)` and returns it. -/
def cachedGet (cache : Cache) (cache_key key : String)
    (loader : Unit → RawData × AdapterCall) : RawData × Cache × List AdapterCall :=
  match cacheLookup cache cache_key key with
  | some data => (data, cache, [])
  | none =>
    let (data, call) := loader ()
    (data, cacheInsert cache cache_key key data, [call])

/-- The state of one `ExplorerSchemaService` instance: the session's
inspector and capabilities, the object cache, and the optional
`db_arg_resolver`. -/
structure ExplorerSchemaService where
  inspector : Inspector
  capabilities : Capabilities
  object_cache : Cache
  db_arg_resolver : Option (Option String → Option String)

/-- `ExplorerSchemaService._resolve_db_arg` (schema_service.py lines 28-31):
passes the selector through the injected resolver, or returns it unchanged
when no resolver is set. -/
def resolve_db_arg (svc : ExplorerSchemaService) (database : Option String) : Option String :=
  match svc.db_arg_resolver with
  | some r => r database
  | none => database

/-- The database-scope key `database or "__default__"` (schema_service.py
line 54): Python's `or` falls through to the sentinel when the selector is
`None` or the empty string. -/
def cacheKeyOf (database : Option String) : String :=
  match database with
  | some d => if d = "" then "__default__" else d
  | none => "__default__"

/-- `ExplorerSchemaService.list_folder_items` (schema_service.py lines
50-100), returning the items, the object cache after the call, and the
trace of adapter calls dispatched through the session worker. -/
def list_folder_items (svc : ExplorerSchemaService) (folder_type : String)
    (database : Option String) :
    List (String × String × String) × Cache × List AdapterCall :=
  let db_arg := resolve_db_arg svc database
  let cache_key := cacheKeyOf database
  if folder_type = "tables" then
    let (raw, cache, calls) := cachedGet svc.object_cache cache_key "tables"
      (fun _ => (RawData.pairs (svc.inspector.get_tables db_arg), AdapterCall.getTables db_arg))
    (raw.asPairs.map (fun sn => ("table", sn.1, sn.2)), cache, calls)
  else if folder_type = "views" then
    let (raw, cache, calls) := cachedGet svc.object_cache cache_key "views"
      (fun _ => (RawData.pairs (svc.inspector.get_views db_arg), AdapterCall.getViews db_arg))
    (raw.asPairs.map (fun sn => ("view", sn.1, sn.2)), cache, calls)
  else if folder_type = "indexes" then
    match svc.capabilities.supports_indexes, svc.inspector.get_indexes with
    | true, some get_indexes =>
      ((get_indexes db_arg).map (fun i => ("index", i.name, i.table_name)),
        svc.object_cache, [AdapterCall.getIndexes db_arg])
    | _, _ => ([], svc.object_cache, [])
  else if folder_type = "triggers" then
    match svc.capabilities.supports_triggers, svc.inspector.get_triggers with
    | true, some get_triggers =>
      ((get_triggers db_arg).map (fun i => ("trigger", i.name, i.table_name)),
        svc.object_cache, [AdapterCall.getTriggers db_arg])
    | _, _ => ([], svc.object_cache, [])
  else if folder_type = "sequences" then
    match svc.capabilities.supports_sequences, svc.inspector.get_sequences with
    | true, some get_sequences =>
      ((get_sequences db_arg).map (fun i => ("sequence", i.name, "")),
        svc.object_cache, [AdapterCall.getSequences db_arg])
    | _, _ => ([], svc.object_cache, [])
  else if folder_type = "procedures" then
    match svc.capabilities.supports_stored_procedures, svc.inspector.get_procedures with
    | true, some get_procedures =>
      let (raw, cache, calls) := cachedGet svc.object_cache cache_key "procedures"
        (fun _ => (RawData.names (get_procedures db_arg), AdapterCall.getProcedures db_arg))
      (raw.asNames.map (fun n => ("procedure", "", n)), cache, calls)
    | _, _ => ([], svc.object_cache, [])
  else
    ([], svc.object_cache, [])

/-- The service instance after a `list_folder_items` call: same session
wiring, updated cache. -/
def afterCall (svc : ExplorerSchemaService) (folder_type : String)
    (database : Option String) : ExplorerSchemaService :=
  { svc with object_cache := (list_folder_items svc folder_type database).2.1 }

/-! ## Helper lemmas on the connection flow -/

/-- Credential population is a no-op when both required passwords are
already present (the early return of `populate_credentials_if_missing`,
or vacuously when no endpoint is configured). -/
theorem populate_id_of_present (store : CredStore) (c : ConnectionConfig)
    (hdb : db_password_present c = true) (hssh : ssh_password_present c = true) :
    populate_credentials_if_missing store c = c := by
  unfold db_password_present at hdb
  unfold ssh_password_present at hssh
  unfold populate_credentials_if_missing
  cases he : c.tcp_endpoint <;> cases ht : c.tunnel <;> simp_all <;>
    intro h <;> simp_all

/-- Credential population is a no-op when the credential store has no
password and no SSH password stored under the configuration's name. -/
theorem populate_id_of_store_none (store : CredStore) (c : ConnectionConfig)
    (h1 : store.get_password c.name = none) (h2 : store.get_ssh_password c.name = none) :
    populate_credentials_if_missing store c = c := by
  unfold populate_credentials_if_missing
  cases he : c.tcp_endpoint <;> cases ht : c.tunnel <;> simp_all

/-- Filling the tunnel password discharges `needs_ssh_password`. -/
theorem needs_ssh_after_with_tunnel (c : ConnectionConfig) (pw : String)
    (h : needs_ssh_password c = true) :
    needs_ssh_password (c.with_tunnel_password pw) = false := by
  unfold needs_ssh_password ConnectionConfig.with_tunnel_password at *
  cases ht : c.tunnel <;> simp_all

/-- Filling the endpoint password leaves the tunnel untouched. -/
theorem needs_ssh_after_with_endpoint (c : ConnectionConfig) (pw : String) :
    needs_ssh_password (c.with_endpoint_password pw) = needs_ssh_password c := by
  unfold needs_ssh_password ConnectionConfig.with_endpoint_password
  cases ht : c.tunnel <;> simp_all

/-- Filling the endpoint password discharges `needs_db_password`. -/
theorem needs_db_after_with_endpoint (c : ConnectionConfig) (pw : String)
    (h : needs_db_password c = true) :
    needs_db_password (c.with_endpoint_password pw) = false := by
  unfold needs_db_password ConnectionConfig.with_endpoint_password at *
  cases he : c.tcp_endpoint <;> simp_all

/-- A present DB password means `needs_db_password` is false. -/
theorem not_needs_db_of_present (c : ConnectionConfig)
    (h : db_password_present c = true) : needs_db_password c = false := by
  unfold db_password_present at h
  unfold needs_db_password
  cases he : c.tcp_endpoint <;> simp_all

/-- A present SSH password means `needs_ssh_password` is false. -/
theorem not_needs_ssh_of_present (c : ConnectionConfig)
    (h : ssh_password_present c = true) : needs_ssh_password c = false := by
  unfold ssh_password_present at h
  unfold needs_ssh_password
  cases ht : c.tunnel <;> simp_all

/-- `with_db_password` invariant: at most one `on_ready`, and every
configuration delivered to `on_ready` has both required secrets present,
provided the configuration entering the DB stage no longer needs an SSH
password. -/
theorem with_db_password_invariant (prompter : Option PrompterBehavior)
    (config : ConnectionConfig) (hssh : needs_ssh_password config = false) :
    readyCount (with_db_password prompter config) ≤ 1 ∧
      ∀ cfg, FlowEvent.ready cfg ∈ with_db_password prompter config →
        needs_ssh_password cfg = false ∧ needs_db_password cfg = false := by
  unfold with_db_password
  by_cases hdb : needs_db_password config = true
  · cases prompter with
    | none => simp [hdb, readyCount]
    | some p =>
      cases hr : p.db_response config with
      | none => simp [hdb, hr, readyCount]
      | some o =>
        cases o with
        | none => simp [hdb, hr, readyCount]
        | some pw =>
          refine ⟨by simp [hdb, hr, readyCount], ?_⟩
          intro cfg hm
          simp [hdb, hr] at hm
          subst hm
          exact ⟨by rw [needs_ssh_after_with_endpoint]; exact hssh,
            needs_db_after_with_endpoint config pw hdb⟩
  · refine ⟨by simp [hdb, readyCount], ?_⟩
    intro cfg hm
    simp [hdb] at hm
    subst hm
    exact ⟨hssh, by simpa using hdb⟩

/-- Credential population is also a no-op when the store has no DB password
under the configuration's name and the SSH password is not needed. -/
theorem populate_id_of_store_none_ssh_present (store : CredStore) (c : ConnectionConfig)
    (h1 : store.get_password c.name = none) (hssh : needs_ssh_password c = false) :
    populate_credentials_if_missing store c = c := by
  unfold needs_ssh_password at hssh
  unfold populate_credentials_if_missing
  cases he : c.tcp_endpoint <;> cases ht : c.tunnel <;> simp_all <;>
    intros <;> simp_all

/-- Prepending a prompt event does not change the `on_ready` count. -/
theorem readyCount_cons_promptSSH (c : ConnectionConfig) (tr : List FlowEvent) :
    readyCount (FlowEvent.promptSSH c :: tr) = readyCount tr := by
  simp [readyCount]

/-! ## Concrete fixtures used by the witnesses -/

/-- A configuration with both passwords present. -/
def cfgFull : ConnectionConfig :=
  { name := "prod", db_type := "postgresql",
    tcp_endpoint := some
      { host := "db.example.com", port := "5432",
        username := "admin", password := some "dbpw" },
    tunnel := some
      { host := "bastion", port := "22",
        username := "ops", password := some "sshpw" } }

/-- A configuration missing only the DB password. -/
def cfgNoDb : ConnectionConfig :=
  { name := "staging", db_type := "mysql",
    tcp_endpoint := some
      { host := "db.local", port := "3306",
        username := "root", password := none },
    tunnel := none }

/-- A configuration missing both passwords. -/
def cfgNoBoth : ConnectionConfig :=
  { name := "remote", db_type := "postgresql",
    tcp_endpoint := some
      { host := "10.0.0.5", port := "5432",
        username := "svc", password := none },
    tunnel := some
      { host := "jump", port := "22",
        username := "ops", password := none } }

/-- A credential store with nothing stored. -/
def storeEmpty : CredStore :=
  { get_password := fun _ => none, get_ssh_password := fun _ => none }

/-- A prompter whose callbacks always supply a password. -/
def prompterYes : PrompterBehavior :=
  { ssh_response := fun _ => some (some "sshsecret"),
    db_response := fun _ => some (some "secret1") }

/-- A prompter that cancels the SSH prompt. -/
def prompterCancelSSH : PrompterBehavior :=
  { ssh_response := fun _ => some none,
    db_response := fun _ => some (some "secret1") }

/-! ## Claims about the connection flow -/

/-- C1: for every configuration in which the endpoint password and, when a
tunnel is configured, the tunnel password are already present, `start`
produces exactly the trace `[ready config]` — `on_ready` fires exactly
once, with the configuration unchanged, and no prompter operation is ever
invoked (in this pure embedding the whole trace is produced synchronously
within the `start` call), for every credential store and prompter. -/
theorem start_credentialed_ready_once (store : CredStore)
    (prompter : Option PrompterBehavior) (config : ConnectionConfig)
    (hdb : db_password_present config = true)
    (hssh : ssh_password_present config = true) :
    start store prompter config = [FlowEvent.ready config] := by
  simp [start, populate_id_of_present store config hdb hssh,
    not_needs_ssh_of_present config hssh, with_db_password,
    not_needs_db_of_present config hdb]

/-- Witness for C1 at a concrete fully-credentialed configuration. -/
theorem start_credentialed_ready_once_witness :
    db_password_present cfgFull = true ∧ ssh_password_present cfgFull = true ∧
      start storeEmpty (some prompterYes) cfgFull = [FlowEvent.ready cfgFull] :=
  ⟨by decide, by decide,
    start_credentialed_ready_once storeEmpty (some prompterYes) cfgFull
      (by decide) (by decide)⟩

/-- C2: for a configuration missing both passwords (and a store that has
neither), the trace of `start` begins with the SSH prompt — so the SSH
password is requested before the DB prompt could ever be issued — and if
the SSH callback is invoked with no value, the trace is exactly the SSH
prompt: no DB prompt and no `on_ready`. -/
theorem start_ssh_prompt_first (store : CredStore) (p : PrompterBehavior)
    (config : ConnectionConfig)
    (hssh : needs_ssh_password config = true)
    (hdb : needs_db_password config = true)
    (h1 : store.get_password config.name = none)
    (h2 : store.get_ssh_password config.name = none) :
    (∃ rest, start store (some p) config = FlowEvent.promptSSH config :: rest) ∧
      (p.ssh_response config = some none →
        start store (some p) config = [FlowEvent.promptSSH config] ∧
          hasPromptDB (start store (some p) config) = false ∧
          readyCount (start store (some p) config) = 0) := by
  have hp := populate_id_of_store_none store config h1 h2
  constructor
  · refine ⟨(match p.ssh_response config with
      | none => []
      | some none => []
      | some (some password) =>
        with_db_password (some p) (config.with_tunnel_password password)), ?_⟩
    simp [start, hp, hssh]
  · intro hc
    have ht : start store (some p) config = [FlowEvent.promptSSH config] := by
      simp [start, hp, hssh, hc]
    exact ⟨ht, by simp [ht, hasPromptDB], by simp [ht, readyCount]⟩

/-- Witness for C2 at a concrete configuration missing both passwords,
with an SSH-cancelling prompter. -/
theorem start_ssh_prompt_first_witness :
    needs_ssh_password cfgNoBoth = true ∧ needs_db_password cfgNoBoth = true ∧
      storeEmpty.get_password cfgNoBoth.name = none ∧
      storeEmpty.get_ssh_password cfgNoBoth.name = none ∧
      prompterCancelSSH.ssh_response cfgNoBoth = some none ∧
      start storeEmpty (some prompterCancelSSH) cfgNoBoth =
        [FlowEvent.promptSSH cfgNoBoth] :=
  ⟨by decide, by decide, rfl, rfl, rfl,
    ((start_ssh_prompt_first storeEmpty prompterCancelSSH cfgNoBoth
      (by decide) (by decide) rfl rfl).2 rfl).1⟩

/-- C3: when no prompter is registered and the configuration still needs
an SSH or a DB password after credential population, `start` produces the
empty trace: it returns (the embedding is total, so no error is raised)
and `on_ready` is never invoked. -/
theorem start_no_prompter_silent (store : CredStore) (config : ConnectionConfig)
    (h : needs_ssh_password (populate_credentials_if_missing store config) = true ∨
      needs_db_password (populate_credentials_if_missing store config) = true) :
    start store none config = [] := by
  by_cases hssh :
      needs_ssh_password (populate_credentials_if_missing store config) = true
  · simp [start, hssh]
  · rcases h with h | h
    · exact absurd h hssh
    · simp [start, hssh, with_db_password, h]

/-- Witness for C3 at a concrete configuration missing both passwords and
no prompter registered. -/
theorem start_no_prompter_silent_witness :
    needs_db_password (populate_credentials_if_missing storeEmpty cfgNoBoth) = true ∧
      start storeEmpty none cfgNoBoth = [] :=
  ⟨by decide,
    start_no_prompter_silent storeEmpty cfgNoBoth (Or.inr (by decide))⟩

/-- C4: for every configuration and every behaviour of the credential
store and the prompter, one `start` run invokes `on_ready` at most once,
and every configuration delivered to `on_ready` has all required secrets
present (neither `needs_ssh_password` nor `needs_db_password` holds). -/
theorem start_on_ready_invariant (store : CredStore)
    (prompter : Option PrompterBehavior) (config : ConnectionConfig) :
    readyCount (start store prompter config) ≤ 1 ∧
      ∀ cfg, FlowEvent.ready cfg ∈ start store prompter config →
        needs_ssh_password cfg = false ∧ needs_db_password cfg = false := by
  unfold start
  by_cases hssh :
      needs_ssh_password (populate_credentials_if_missing store config) = true
  · cases prompter with
    | none => simp [hssh, readyCount]
    | some p =>
      cases hr : p.ssh_response (populate_credentials_if_missing store config) with
      | none => simp [hssh, hr, readyCount]
      | some o =>
        cases o with
        | none => simp [hssh, hr, readyCount]
        | some pw =>
          have hinv := with_db_password_invariant (some p)
            ((populate_credentials_if_missing store config).with_tunnel_password pw)
            (needs_ssh_after_with_tunnel _ pw hssh)
          simp only [hssh, hr, if_pos]
          refine ⟨by rw [readyCount_cons_promptSSH]; exact hinv.1, ?_⟩
          intro cfg hm
          simp only [List.mem_cons] at hm
          rcases hm with hm | hm
          · exact absurd hm (by simp)
          · exact hinv.2 cfg hm
  · have hssh' : needs_ssh_password (populate_credentials_if_missing store config) = false := by
      simpa using hssh
    simpa [hssh'] using
      with_db_password_invariant prompter
        (populate_credentials_if_missing store config) hssh'

/-- C5: for a configuration missing only the DB password, with a prompter
whose DB callback supplies `pw`, the trace is exactly a DB prompt followed
by one `on_ready` with the endpoint password set to `pw` — the SSH prompt
is never issued — and the delivered configuration differs from the input
only in the endpoint password. -/
theorem start_db_only_prompt (store : CredStore) (p : PrompterBehavior)
    (config : ConnectionConfig) (pw : String)
    (hssh : needs_ssh_password config = false)
    (hdb : needs_db_password config = true)
    (h1 : store.get_password config.name = none)
    (hresp : p.db_response config = some (some pw)) :
    start store (some p) config =
        [FlowEvent.promptDB config,
          FlowEvent.ready (config.with_endpoint_password pw)] ∧
      (config.with_endpoint_password pw).name = config.name ∧
      (config.with_endpoint_password pw).db_type = config.db_type ∧
      (config.with_endpoint_password pw).tunnel = config.tunnel ∧
      (config.with_endpoint_password pw).tcp_endpoint.map
          (fun e => (e.host, e.port, e.username)) =
        config.tcp_endpoint.map (fun e => (e.host, e.port, e.username)) ∧
      (config.with_endpoint_password pw).tcp_endpoint.map Endpoint.password =
        some (some pw) := by
  have hp := populate_id_of_store_none_ssh_present store config h1 hssh
  refine ⟨by simp [start, hp, hssh, with_db_password, hdb, hresp], rfl, rfl, rfl, ?_, ?_⟩
  · unfold ConnectionConfig.with_endpoint_password
    cases config.tcp_endpoint <;> rfl
  · unfold needs_db_password at hdb
    unfold ConnectionConfig.with_endpoint_password
    cases he : config.tcp_endpoint <;> simp_all

/-- Witness for C5 at a concrete configuration missing only the DB
password, with the prompter supplying the password `secret1`. -/
theorem start_db_only_prompt_witness :
    needs_ssh_password cfgNoDb = false ∧ needs_db_password cfgNoDb = true ∧
      prompterYes.db_response cfgNoDb = some (some "secret1") ∧
      start storeEmpty (some prompterYes) cfgNoDb =
        [FlowEvent.promptDB cfgNoDb,
          FlowEvent.ready (cfgNoDb.with_endpoint_password "secret1")] :=
  ⟨by decide, by decide, rfl,
    (start_db_only_prompt storeEmpty prompterYes cfgNoDb "secret1"
      (by decide) (by decide) rfl rfl).1⟩

/-! ## Helper lemmas on the object cache -/

/-- Looking up the binding just inserted. -/
theorem cacheLookup_insert_self (cache : Cache) (ck k : String) (d : RawData) :
    cacheLookup (cacheInsert cache ck k d) ck k = some d := by
  induction cache with
  | nil => simp [cacheInsert, cacheLookup, partLookup]
  | cons p rest ih =>
    by_cases h : p.1 = ck <;>
      simp [cacheInsert, cacheLookup, partLookup, h, ih]

/-- Inserting under one partition key does not disturb lookups under a
different partition key. -/
theorem cacheLookup_insert_other (cache : Cache) (ck ck' k k' : String)
    (d : RawData) (h : ck' ≠ ck) :
    cacheLookup (cacheInsert cache ck k d) ck' k' = cacheLookup cache ck' k' := by
  induction cache with
  | nil => simp [cacheInsert, cacheLookup, Ne.symm h]
  | cons p rest ih =>
    by_cases hp : p.1 = ck <;> by_cases hp' : p.1 = ck' <;>
      simp_all [cacheInsert, cacheLookup]

/-! ## Helper lemmas on `list_folder_items` -/

/-- A `tables` call on a cache miss: the adapter's `get_tables` is invoked
once with the resolved database argument and the raw result is stored under
`(cache key of the raw selector, tables)`. -/
theorem tables_call_fresh (svc : ExplorerSchemaService) (d : Option String)
    (h : cacheLookup svc.object_cache (cacheKeyOf d) "tables" = none) :
    list_folder_items svc "tables" d =
      ((svc.inspector.get_tables (resolve_db_arg svc d)).map
          (fun sn => ("table", sn.1, sn.2)),
        cacheInsert svc.object_cache (cacheKeyOf d) "tables"
          (RawData.pairs (svc.inspector.get_tables (resolve_db_arg svc d))),
        [AdapterCall.getTables (resolve_db_arg svc d)]) := by
  simp [list_folder_items, cachedGet, h, RawData.asPairs]

/-- A `tables` call on a cache hit: no adapter call, cache unchanged, the
stored raw value is returned. -/
theorem tables_call_hit (svc : ExplorerSchemaService) (d : Option String)
    (raw : RawData)
    (h : cacheLookup svc.object_cache (cacheKeyOf d) "tables" = some raw) :
    list_folder_items svc "tables" d =
      (raw.asPairs.map (fun sn => ("table", sn.1, sn.2)), svc.object_cache, []) := by
  simp [list_folder_items, cachedGet, h]

/-- A `views` call on a cache miss. -/
theorem views_call_fresh (svc : ExplorerSchemaService) (d : Option String)
    (h : cacheLookup svc.object_cache (cacheKeyOf d) "views" = none) :
    list_folder_items svc "views" d =
      ((svc.inspector.get_views (resolve_db_arg svc d)).map
          (fun sn => ("view", sn.1, sn.2)),
        cacheInsert svc.object_cache (cacheKeyOf d) "views"
          (RawData.pairs (svc.inspector.get_views (resolve_db_arg svc d))),
        [AdapterCall.getViews (resolve_db_arg svc d)]) := by
  simp [list_folder_items, cachedGet, h, RawData.asPairs]

/-- A `views` call on a cache hit. -/
theorem views_call_hit (svc : ExplorerSchemaService) (d : Option String)
    (raw : RawData)
    (h : cacheLookup svc.object_cache (cacheKeyOf d) "views" = some raw) :
    list_folder_items svc "views" d =
      (raw.asPairs.map (fun sn => ("view", sn.1, sn.2)), svc.object_cache, []) := by
  simp [list_folder_items, cachedGet, h]

/-- A `procedures` call on a cache miss, for a supporting engine. -/
theorem procedures_call_fresh (svc : ExplorerSchemaService) (d : Option String)
    (f : Option String → List String)
    (hcap : svc.capabilities.supports_stored_procedures = true)
    (hext : svc.inspector.get_procedures = some f)
    (h : cacheLookup svc.object_cache (cacheKeyOf d) "procedures" = none) :
    list_folder_items svc "procedures" d =
      ((f (resolve_db_arg svc d)).map (fun n => ("procedure", "", n)),
        cacheInsert svc.object_cache (cacheKeyOf d) "procedures"
          (RawData.names (f (resolve_db_arg svc d))),
        [AdapterCall.getProcedures (resolve_db_arg svc d)]) := by
  simp [list_folder_items, cachedGet, h, hcap, hext, RawData.asNames]

/-- A `procedures` call on a cache hit, for a supporting engine. -/
theorem procedures_call_hit (svc : ExplorerSchemaService) (d : Option String)
    (f : Option String → List String) (raw : RawData)
    (hcap : svc.capabilities.supports_stored_procedures = true)
    (hext : svc.inspector.get_procedures = some f)
    (h : cacheLookup svc.object_cache (cacheKeyOf d) "procedures" = some raw) :
    list_folder_items svc "procedures" d =
      (raw.asNames.map (fun n => ("procedure", "", n)), svc.object_cache, []) := by
  simp [list_folder_items, cachedGet, h, hcap, hext]

/-- The capability flag guarding a capability-gated folder kind. -/
def gatedCap (svc : ExplorerSchemaService) : String → Bool
  | "indexes" => svc.capabilities.supports_indexes
  | "triggers" => svc.capabilities.supports_triggers
  | "sequences" => svc.capabilities.supports_sequences
  | "procedures" => svc.capabilities.supports_stored_procedures
  | _ => false

/-- Whether the inspector implements the optional extension interface for a
capability-gated folder kind. -/
def gatedExt (svc : ExplorerSchemaService) : String → Bool
  | "indexes" => svc.inspector.get_indexes.isSome
  | "triggers" => svc.inspector.get_triggers.isSome
  | "sequences" => svc.inspector.get_sequences.isSome
  | "procedures" => svc.inspector.get_procedures.isSome
  | _ => false

/-- The one adapter call a cache-missing cached-kind listing performs. -/
def kindCall (svc : ExplorerSchemaService) (kind : String) (db : Option String) : AdapterCall :=
  if kind = "tables" then AdapterCall.getTables (resolve_db_arg svc db)
  else if kind = "views" then AdapterCall.getViews (resolve_db_arg svc db)
  else AdapterCall.getProcedures (resolve_db_arg svc db)

/-- A `list_folder_items` call only changes the object cache: the resolver
wiring, and hence database-argument resolution, is untouched. -/
theorem resolve_db_arg_afterCall (svc : ExplorerSchemaService) (k : String)
    (db d : Option String) :
    resolve_db_arg (afterCall svc k db) d = resolve_db_arg svc d := rfl

/-- A `list_folder_items` call leaves the inspector untouched. -/
theorem inspector_afterCall (svc : ExplorerSchemaService) (k : String)
    (db : Option String) : (afterCall svc k db).inspector = svc.inspector := rfl

/-- A `list_folder_items` call leaves the capability flags untouched. -/
theorem capabilities_afterCall (svc : ExplorerSchemaService) (k : String)
    (db : Option String) :
    (afterCall svc k db).capabilities = svc.capabilities := rfl

/-! ## Concrete fixtures for the schema-service witnesses -/

/-- An inspector implementing only the base contract and the procedure
extension. -/
def inspectorBase : Inspector :=
  { get_tables := fun _ => [("main", "users"), ("main", "orders")],
    get_views := fun _ => [("main", "v_users")],
    get_indexes := none,
    get_triggers := none,
    get_sequences := none,
    get_procedures := some (fun _ => ["refresh_totals"]) }

/-- A capability set declaring no optional kind. -/
def capsNone : Capabilities :=
  { supports_indexes := false, supports_triggers := false,
    supports_sequences := false, supports_stored_procedures := false,
    supports_multiple_databases := false }

/-- A fresh service over `inspectorBase` with no resolver and no optional
capabilities. -/
def svcFresh : ExplorerSchemaService :=
  { inspector := inspectorBase, capabilities := capsNone,
    object_cache := [], db_arg_resolver := none }

/-- A fresh service whose injected resolver maps every selector to `none`
(an engine addressing the current database implicitly). -/
def svcResolverNone : ExplorerSchemaService :=
  { inspector := inspectorBase, capabilities := capsNone,
    object_cache := [], db_arg_resolver := some (fun _ => none) }

/-! ## Claims about the schema service -/

/-- C6: for every capability-gated folder kind (indexes, triggers,
sequences, procedures), when the session's capability flag for that kind is
false or the inspector lacks the corresponding optional extension
interface, `list_folder_items` returns the empty list, leaves the cache
untouched, and dispatches no work to the session worker. -/
theorem list_gated_unsupported_empty (svc : ExplorerSchemaService)
    (kind : String) (database : Option String)
    (hk : kind = "indexes" ∨ kind = "triggers" ∨ kind = "sequences" ∨
      kind = "procedures")
    (h : gatedCap svc kind = false ∨ gatedExt svc kind = false) :
    list_folder_items svc kind database = ([], svc.object_cache, []) := by
  rcases hk with hk | hk | hk | hk <;> subst hk
  · rcases h with h | h <;>
      cases hc : svc.capabilities.supports_indexes <;>
        cases hx : svc.inspector.get_indexes <;>
          simp_all [gatedCap, gatedExt, list_folder_items]
  · rcases h with h | h <;>
      cases hc : svc.capabilities.supports_triggers <;>
        cases hx : svc.inspector.get_triggers <;>
          simp_all [gatedCap, gatedExt, list_folder_items]
  · rcases h with h | h <;>
      cases hc : svc.capabilities.supports_sequences <;>
        cases hx : svc.inspector.get_sequences <;>
          simp_all [gatedCap, gatedExt, list_folder_items]
  · rcases h with h | h <;>
      cases hc : svc.capabilities.supports_stored_procedures <;>
        cases hx : svc.inspector.get_procedures <;>
          simp_all [gatedCap, gatedExt, list_folder_items]

/-- Witness for C6: a session that does not support indexes lists the
`indexes` folder as empty without any adapter call. -/
theorem list_gated_unsupported_empty_witness :
    gatedCap svcFresh "indexes" = false ∧
      list_folder_items svcFresh "indexes" (some "db1") =
        ([], svcFresh.object_cache, []) :=
  ⟨rfl, list_gated_unsupported_empty svcFresh "indexes" (some "db1")
    (Or.inl rfl) (Or.inl rfl)⟩

/-- C7 (amended): for the cached kinds (tables, views, and — on a
supporting engine — procedures), two consecutive calls with the same
selector on a service whose cache has no entry for them yet perform exactly
one adapter call and return equal results; a subsequent call with a
selector whose cache key differs performs a fresh adapter call and stores
into a separate partition, leaving the first partition untouched. -/
theorem list_folder_items_memoized (svc : ExplorerSchemaService) (kind : String)
    (d d' : Option String)
    (hkind : kind = "tables" ∨ kind = "views" ∨ kind = "procedures")
    (hproc : kind = "procedures" →
      svc.capabilities.supports_stored_procedures = true ∧
        ∃ f, svc.inspector.get_procedures = some f)
    (h1 : cacheLookup svc.object_cache (cacheKeyOf d) kind = none)
    (h2 : cacheLookup svc.object_cache (cacheKeyOf d') kind = none)
    (hne : cacheKeyOf d' ≠ cacheKeyOf d) :
    (list_folder_items svc kind d).2.2 = [kindCall svc kind d] ∧
      (list_folder_items (afterCall svc kind d) kind d).2.2 = [] ∧
      (list_folder_items (afterCall svc kind d) kind d).1 =
        (list_folder_items svc kind d).1 ∧
      (list_folder_items (afterCall (afterCall svc kind d) kind d) kind d').2.2 =
        [kindCall svc kind d'] ∧
      cacheLookup
          (list_folder_items (afterCall (afterCall svc kind d) kind d) kind d').2.1
          (cacheKeyOf d) kind =
        cacheLookup (afterCall svc kind d).object_cache (cacheKeyOf d) kind ∧
      (cacheLookup
          (list_folder_items (afterCall (afterCall svc kind d) kind d) kind d').2.1
          (cacheKeyOf d') kind).isSome = true := by
  rcases hkind with hk | hk | hk
  · subst hk
    have e1 := tables_call_fresh svc d h1
    have hc1 : (afterCall svc "tables" d).object_cache =
        cacheInsert svc.object_cache (cacheKeyOf d) "tables"
          (RawData.pairs (svc.inspector.get_tables (resolve_db_arg svc d))) := by
      show (list_folder_items svc "tables" d).2.1 = _
      rw [e1]
    have hl1 : cacheLookup (afterCall svc "tables" d).object_cache
        (cacheKeyOf d) "tables" =
        some (RawData.pairs (svc.inspector.get_tables (resolve_db_arg svc d))) := by
      rw [hc1]; exact cacheLookup_insert_self _ _ _ _
    have e2 := tables_call_hit (afterCall svc "tables" d) d _ hl1
    have hc2 : (afterCall (afterCall svc "tables" d) "tables" d).object_cache =
        (afterCall svc "tables" d).object_cache := by
      show (list_folder_items (afterCall svc "tables" d) "tables" d).2.1 = _
      rw [e2]
    have hl2 : cacheLookup
        (afterCall (afterCall svc "tables" d) "tables" d).object_cache
        (cacheKeyOf d') "tables" = none := by
      rw [hc2, hc1, cacheLookup_insert_other _ _ _ _ _ _ hne]; exact h2
    have e3 := tables_call_fresh (afterCall (afterCall svc "tables" d) "tables" d) d' hl2
    refine ⟨by rw [e1]; simp [kindCall], by rw [e2], ?_, ?_, ?_, ?_⟩
    · rw [e1, e2]; simp [RawData.asPairs]
    · rw [e3]
      simp [kindCall, resolve_db_arg_afterCall]
    · rw [e3]
      show cacheLookup (cacheInsert _ _ _ _) _ _ = _
      rw [cacheLookup_insert_other _ _ _ _ _ _ (Ne.symm hne), hc2]
    · rw [e3]
      show (cacheLookup (cacheInsert _ _ _ _) _ _).isSome = true
      rw [cacheLookup_insert_self]
      rfl
  · subst hk
    have e1 := views_call_fresh svc d h1
    have hc1 : (afterCall svc "views" d).object_cache =
        cacheInsert svc.object_cache (cacheKeyOf d) "views"
          (RawData.pairs (svc.inspector.get_views (resolve_db_arg svc d))) := by
      show (list_folder_items svc "views" d).2.1 = _
      rw [e1]
    have hl1 : cacheLookup (afterCall svc "views" d).object_cache
        (cacheKeyOf d) "views" =
        some (RawData.pairs (svc.inspector.get_views (resolve_db_arg svc d))) := by
      rw [hc1]; exact cacheLookup_insert_self _ _ _ _
    have e2 := views_call_hit (afterCall svc "views" d) d _ hl1
    have hc2 : (afterCall (afterCall svc "views" d) "views" d).object_cache =
        (afterCall svc "views" d).object_cache := by
      show (list_folder_items (afterCall svc "views" d) "views" d).2.1 = _
      rw [e2]
    have hl2 : cacheLookup
        (afterCall (afterCall svc "views" d) "views" d).object_cache
        (cacheKeyOf d') "views" = none := by
      rw [hc2, hc1, cacheLookup_insert_other _ _ _ _ _ _ hne]; exact h2
    have e3 := views_call_fresh (afterCall (afterCall svc "views" d) "views" d) d' hl2
    refine ⟨by rw [e1]; simp [kindCall], by rw [e2], ?_, ?_, ?_, ?_⟩
    · rw [e1, e2]; simp [RawData.asPairs]
    · rw [e3]
      simp [kindCall, resolve_db_arg_afterCall]
    · rw [e3]
      show cacheLookup (cacheInsert _ _ _ _) _ _ = _
      rw [cacheLookup_insert_other _ _ _ _ _ _ (Ne.symm hne), hc2]
    · rw [e3]
      show (cacheLookup (cacheInsert _ _ _ _) _ _).isSome = true
      rw [cacheLookup_insert_self]
      rfl
  · subst hk
    obtain ⟨hcap, f, hext⟩ : svc.capabilities.supports_stored_procedures = true ∧
        ∃ f, svc.inspector.get_procedures = some f := hproc rfl
    have e1 := procedures_call_fresh svc d f hcap hext h1
    have hc1 : (afterCall svc "procedures" d).object_cache =
        cacheInsert svc.object_cache (cacheKeyOf d) "procedures"
          (RawData.names (f (resolve_db_arg svc d))) := by
      show (list_folder_items svc "procedures" d).2.1 = _
      rw [e1]
    have hl1 : cacheLookup (afterCall svc "procedures" d).object_cache
        (cacheKeyOf d) "procedures" =
        some (RawData.names (f (resolve_db_arg svc d))) := by
      rw [hc1]; exact cacheLookup_insert_self _ _ _ _
    have e2 := procedures_call_hit (afterCall svc "procedures" d) d f _ hcap hext hl1
    have hc2 : (afterCall (afterCall svc "procedures" d) "procedures" d).object_cache =
        (afterCall svc "procedures" d).object_cache := by
      show (list_folder_items (afterCall svc "procedures" d) "procedures" d).2.1 = _
      rw [e2]
    have hl2 : cacheLookup
        (afterCall (afterCall svc "procedures" d) "procedures" d).object_cache
        (cacheKeyOf d') "procedures" = none := by
      rw [hc2, hc1, cacheLookup_insert_other _ _ _ _ _ _ hne]; exact h2
    have e3 := procedures_call_fresh
      (afterCall (afterCall svc "procedures" d) "procedures" d) d' f hcap hext hl2
    refine ⟨by rw [e1]; simp [kindCall], by rw [e2], ?_, ?_, ?_, ?_⟩
    · rw [e1, e2]; simp [RawData.asNames]
    · rw [e3]
      simp [kindCall, resolve_db_arg_afterCall]
    · rw [e3]
      show cacheLookup (cacheInsert _ _ _ _) _ _ = _
      rw [cacheLookup_insert_other _ _ _ _ _ _ (Ne.symm hne), hc2]
    · rw [e3]
      show (cacheLookup (cacheInsert _ _ _ _) _ _).isSome = true
      rw [cacheLookup_insert_self]
      rfl

/-- Counterexample for C7 as frozen: the selectors `None` and `""` are
different, yet they share the default cache partition, so the subsequent
call with the different selector `""` performs no adapter call at all
(instead of "invoking the adapter again into a separate partition"). -/
theorem list_folder_items_distinct_selector_cex :
    (some "" : Option String) ≠ none ∧
      (list_folder_items svcFresh "tables" none).2.2 =
        [AdapterCall.getTables none] ∧
      (list_folder_items (afterCall svcFresh "tables" none) "tables" (some "")).2.2 =
        [] := by
  exact ⟨by decide, rfl, rfl⟩

/-- Witness for the amended C7 at a fresh service with selectors `db1` and
`db2`. -/
theorem list_folder_items_memoized_witness :
    cacheKeyOf (some "db2") ≠ cacheKeyOf (some "db1") ∧
      (list_folder_items svcFresh "tables" (some "db1")).2.2 =
        [kindCall svcFresh "tables" (some "db1")] ∧
      (list_folder_items (afterCall svcFresh "tables" (some "db1"))
        "tables" (some "db1")).2.2 = [] :=
  ⟨by decide,
    (list_folder_items_memoized svcFresh "tables" (some "db1") (some "db2")
      (Or.inl rfl) (fun h => absurd h (by decide)) rfl rfl (by decide)).1,
    (list_folder_items_memoized svcFresh "tables" (some "db1") (some "db2")
      (Or.inl rfl) (fun h => absurd h (by decide)) rfl rfl (by decide)).2.1⟩

/-- Counterexample for C8 as frozen: with an injected resolver mapping every
selector to `none`, calling with selector `db1` resolves to `none` — whose
derived key would be the sentinel `__default__` — yet the partition created
is keyed by the raw selector `db1`, not by the sentinel; the resolved value
is nonetheless what the adapter receives. -/
theorem cache_key_ignores_resolver_cex :
    resolve_db_arg svcResolverNone (some "db1") = none ∧
      cacheKeyOf (resolve_db_arg svcResolverNone (some "db1")) = "__default__" ∧
      cacheLookup (list_folder_items svcResolverNone "tables" (some "db1")).2.1
        "__default__" "tables" = none ∧
      cacheLookup (list_folder_items svcResolverNone "tables" (some "db1")).2.1
        "db1" "tables" =
        some (RawData.pairs [("main", "users"), ("main", "orders")]) ∧
      (list_folder_items svcResolverNone "tables" (some "db1")).2.2 =
        [AdapterCall.getTables none] := by
  exact ⟨rfl, rfl, rfl, rfl, rfl⟩

/-- C8 (amended): every `list_folder_items` call forwards the resolved
database argument to the adapter, while any cache write goes to the
partition keyed by the raw (unresolved) selector — the sentinel
`__default__` standing for a null or empty selector — under the folder
kind. -/
theorem list_folder_items_key_and_resolution (svc : ExplorerSchemaService)
    (kind : String) (database : Option String) :
    (∀ call ∈ (list_folder_items svc kind database).2.2,
        call.dbArg = resolve_db_arg svc database) ∧
      ((list_folder_items svc kind database).2.1 = svc.object_cache ∨
        ∃ dta, (list_folder_items svc kind database).2.1 =
          cacheInsert svc.object_cache (cacheKeyOf database) kind dta) := by
  by_cases hk1 : kind = "tables"
  · subst hk1
    cases h : cacheLookup svc.object_cache (cacheKeyOf database) "tables" with
    | some raw =>
      rw [tables_call_hit svc database raw h]
      exact ⟨by simp, Or.inl rfl⟩
    | none =>
      rw [tables_call_fresh svc database h]
      exact ⟨by simp [AdapterCall.dbArg], Or.inr ⟨_, rfl⟩⟩
  by_cases hk2 : kind = "views"
  · subst hk2
    cases h : cacheLookup svc.object_cache (cacheKeyOf database) "views" with
    | some raw =>
      rw [views_call_hit svc database raw h]
      exact ⟨by simp, Or.inl rfl⟩
    | none =>
      rw [views_call_fresh svc database h]
      exact ⟨by simp [AdapterCall.dbArg], Or.inr ⟨_, rfl⟩⟩
  by_cases hk3 : kind = "indexes"
  · subst hk3
    cases hc : svc.capabilities.supports_indexes <;>
      cases hx : svc.inspector.get_indexes <;>
        exact ⟨by simp [list_folder_items, hc, hx, AdapterCall.dbArg],
          Or.inl (by simp [list_folder_items, hc, hx])⟩
  by_cases hk4 : kind = "triggers"
  · subst hk4
    cases hc : svc.capabilities.supports_triggers <;>
      cases hx : svc.inspector.get_triggers <;>
        exact ⟨by simp [list_folder_items, hc, hx, AdapterCall.dbArg],
          Or.inl (by simp [list_folder_items, hc, hx])⟩
  by_cases hk5 : kind = "sequences"
  · subst hk5
    cases hc : svc.capabilities.supports_sequences <;>
      cases hx : svc.inspector.get_sequences <;>
        exact ⟨by simp [list_folder_items, hc, hx, AdapterCall.dbArg],
          Or.inl (by simp [list_folder_items, hc, hx])⟩
  by_cases hk6 : kind = "procedures"
  · subst hk6
    cases hc : svc.capabilities.supports_stored_procedures with
    | false =>
      exact ⟨by simp [list_folder_items, hc],
        Or.inl (by simp [list_folder_items, hc])⟩
    | true =>
      cases hx : svc.inspector.get_procedures with
      | none =>
        exact ⟨by simp [list_folder_items, hc, hx],
          Or.inl (by simp [list_folder_items, hc, hx])⟩
      | some f =>
        cases h : cacheLookup svc.object_cache (cacheKeyOf database) "procedures" with
        | some raw =>
          rw [procedures_call_hit svc database f raw hc hx h]
          exact ⟨by simp, Or.inl rfl⟩
        | none =>
          rw [procedures_call_fresh svc database f hc hx h]
          exact ⟨by simp [AdapterCall.dbArg], Or.inr ⟨_, rfl⟩⟩
  exact ⟨by simp [list_folder_items, hk1, hk2, hk3, hk4, hk5, hk6],
    Or.inl (by simp [list_folder_items, hk1, hk2, hk3, hk4, hk5, hk6])⟩

/-- C10: for any folder kind outside the six recognized kinds,
`list_folder_items` returns the empty list, leaves the cache untouched, and
dispatches no adapter call (the embedding is total, so no error is
raised). -/
theorem list_folder_items_unknown_kind (svc : ExplorerSchemaService)
    (kind : String) (database : Option String)
    (h1 : kind ≠ "tables") (h2 : kind ≠ "views") (h3 : kind ≠ "indexes")
    (h4 : kind ≠ "triggers") (h5 : kind ≠ "sequences") (h6 : kind ≠ "procedures") :
    list_folder_items svc kind database = ([], svc.object_cache, []) := by
  simp [list_folder_items, h1, h2, h3, h4, h5, h6]

/-- Witness for C10 at the unrecognized kind `columns`. -/
theorem list_folder_items_unknown_kind_witness :
    ("columns" : String) ≠ "tables" ∧
      list_folder_items svcFresh "columns" (some "db1") =
        ([], svcFresh.object_cache, []) :=
  ⟨by decide,
    list_folder_items_unknown_kind svcFresh "columns" (some "db1")
      (by decide) (by decide) (by decide) (by decide) (by decide) (by decide)⟩

end Sqlit
